import Mathlib

/-!
Shallow embedding of the engagement and publication-state subsystem of the
Pearl blog backend (`src/server/api/index.js`), together with theorems
settling the frozen claims about it.

The Mongo collections are modelled as lists of documents inside a `DB`
record; `findOneAndUpdate` is modelled as an update of the first matching
document that returns the pre-update document (the source never passes
`new: true`); `findOneAndDelete` removes the first matching document;
`$inc` is a single atomic field increment.
-/

namespace PearlBlog

/-- JS truthiness of an optional boolean request field (`undefined`,
`false` are falsy). -/
def truthy : Option Bool → Bool
  | some true => true
  | _ => false

/-- Embedded counters of a blog (`activity` subdocument). -/
structure Activity where
  total_reads : Int
  total_likes : Int
deriving DecidableEq

/-- The blog content payload; the source only ever inspects
`content.blocks.length`, so blocks are kept opaque. -/
structure Content where
  blocks : List String
deriving DecidableEq

/-- A document of the `Blog` collection. `oid` is the Mongo `_id`;
`blog_id` the human-readable id. `author` refers to a user's `_id`.
Modelled from the spec: the schema files are not under `src/`, so the
counter defaults (0) and the field set follow the spec's data model. -/
structure BlogDoc where
  oid : Nat
  blog_id : String
  title : String
  description : String
  banner : String
  content : Content
  tags : List String
  draft : Bool
  author : Nat
  activity : Activity
deriving DecidableEq

/-- `account_info` subdocument of a user. -/
structure AccountInfo where
  total_posts : Int
  total_reads : Int
deriving DecidableEq

/-- A document of the `User` collection (the fields the core touches). -/
structure UserDoc where
  oid : Nat
  username : String
  account_info : AccountInfo
  blogs : List Nat
deriving DecidableEq

/-- A document of the `Notification` collection; for this core only the
like-ledger entries matter (`type`, `notification_for`, `blog`, `user`). -/
structure NotificationDoc where
  type : String
  notification_for : Nat
  blog : Nat
  user : Nat
deriving DecidableEq

/-- The persistent state: the three collections the core touches. -/
structure DB where
  blogs : List BlogDoc
  users : List UserDoc
  notifications : List NotificationDoc
deriving DecidableEq

/-- Update the first element satisfying `p` (Mongo `findOneAndUpdate`:
at most one document is modified). -/
def updateFirst (p : α → Bool) (f : α → α) : List α → List α
  | [] => []
  | a :: l => if p a then f a :: l else a :: updateFirst p f l

/-- Remove the first element satisfying `p` (Mongo `findOneAndDelete`). -/
def eraseFirst (p : α → Bool) : List α → List α
  | [] => []
  | a :: l => if p a then l else a :: eraseFirst p l

/-- `Blog.findOne({blog_id})`. -/
def findBlogById (bs : List BlogDoc) (bid : String) : Option BlogDoc :=
  bs.find? (fun bb => bb.blog_id == bid)

/-- `Blog.findOne({_id})`. -/
def findBlogByOid (bs : List BlogDoc) (oid : Nat) : Option BlogDoc :=
  bs.find? (fun bb => bb.oid == oid)

/-- `User.findOne({_id})`. -/
def findUserByOid (us : List UserDoc) (oid : Nat) : Option UserDoc :=
  us.find? (fun uu => uu.oid == oid)

/-- `User.findOne({"personal_info.username": uname})`. -/
def findUserByUsername (us : List UserDoc) (uname : String) : Option UserDoc :=
  us.find? (fun uu => uu.username == uname)

/-- `$inc` on `activity.total_reads` (src line 448). -/
def bumpBlogReads (delta : Int) (bb : BlogDoc) : BlogDoc :=
  { bb with activity := { bb.activity with total_reads := bb.activity.total_reads + delta } }

/-- `$inc` on `activity.total_likes` (src line 478). -/
def bumpBlogLikes (delta : Int) (bb : BlogDoc) : BlogDoc :=
  { bb with activity := { bb.activity with total_likes := bb.activity.total_likes + delta } }

/-- `$inc` on `account_info.total_reads` (src line 458). -/
def bumpUserReads (delta : Int) (uu : UserDoc) : UserDoc :=
  { uu with account_info := { uu.account_info with total_reads := uu.account_info.total_reads + delta } }

/-- src line 444: `let incrementalValue = mode == "edit" ? 0 : 1;`. -/
def readInc (mode : String) : Int :=
  if mode == "edit" then 0 else 1

/-- src line 474: `let incrementalValue = !isLikedByUser ? 1 : -1;`. -/
def likeInc (isLikedByUser : Bool) : Int :=
  if !isLikedByUser then 1 else -1

/-- Outcome of `POST /get-blog` as seen by the caller. `caughtErr` is the
500 response produced by the promise chain's `.catch` when the callback
threw (a `TypeError` on a null blog or null populated author). -/
inductive GetBlogResp
  | ok (blog : BlogDoc)
  | draftDenied
  | caughtErr
deriving DecidableEq

/-- `POST /get-blog` (src lines 441-469).

`Blog.findOneAndUpdate({blog_id}, {$inc: {"activity.total_reads": inc}})`
resolves with the PRE-update document (no `new: true`); if no blog
matched it resolves with `null` and the `.then` callback throws on
`blog.author...`, which the chain's `.catch` turns into a 500 response.
On success the author's `account_info.total_reads` is incremented via a
lookup by the populated author's username, then the draft-visibility
check runs, and only then is the (pre-update) blog returned. -/
def getBlog (db : DB) (blogId : String) (draftReq : Bool) (mode : String) :
    GetBlogResp × DB :=
  match findBlogById db.blogs blogId with
  | none => (GetBlogResp.caughtErr, db)
  | some b =>
    match findUserByOid db.users b.author with
    | none =>
      (GetBlogResp.caughtErr,
       { db with blogs :=
          updateFirst (fun bb => bb.blog_id == blogId) (bumpBlogReads (readInc mode)) db.blogs })
    | some au =>
      (if b.draft && !draftReq then GetBlogResp.draftDenied else GetBlogResp.ok b,
       { db with
          blogs :=
            updateFirst (fun bb => bb.blog_id == blogId) (bumpBlogReads (readInc mode)) db.blogs,
          users :=
            updateFirst (fun uu => uu.username == au.username) (bumpUserReads (readInc mode)) db.users })

/-- The `findOneAndDelete({user, blog, type: "like"})` query predicate of
`POST /like-blog` (src lines 492-496). -/
def notifMatches (userId blogOid : Nat) (n : NotificationDoc) : Bool :=
  n.user == userId && n.blog == blogOid && n.type == "like"

/-- Outcome of `POST /like-blog` as seen by the caller. `uncaught` marks
the case where the `.then` callback throws with no `.catch` attached to
the chain: an unhandled promise rejection, no response is sent. -/
inductive LikeResp
  | ok (likedByUser : Bool)
  | uncaught
deriving DecidableEq

/-- `POST /like-blog` (src lines 472-501).

`incrementalValue` is `1` when `isLikedByUser` is false and `-1` when it
is true; the blog's `total_likes` is updated by that delta. Then, when
`isLikedByUser == true`, a `Notification` of type `"like"` is saved
unconditionally (no existence check) and `{likedByUser: true}` is
returned; otherwise the first matching ledger entry is deleted and
`{likedByUser: false}` is returned. When the blog does not resolve,
`blog` is `null`: the true-branch throws on `blog.author` and the chain
has no `.catch`, so no response is sent; the false-branch never touches
`blog` and responds normally. -/
def likeBlog (db : DB) (userId : Nat) (blogOid : Nat) (isLikedByUser : Bool) :
    LikeResp × DB :=
  match findBlogByOid db.blogs blogOid with
  | none =>
    if isLikedByUser then (LikeResp.uncaught, db)
    else
      (LikeResp.ok false,
       { db with notifications := eraseFirst (notifMatches userId blogOid) db.notifications })
  | some b =>
    if isLikedByUser then
      (LikeResp.ok true,
       { db with
          blogs :=
            updateFirst (fun bb => bb.oid == blogOid) (bumpBlogLikes (likeInc isLikedByUser)) db.blogs,
          notifications :=
            db.notifications ++
              [{ type := "like", notification_for := b.author, blog := blogOid, user := userId }] })
    else
      (LikeResp.ok false,
       { db with
          blogs :=
            updateFirst (fun bb => bb.oid == blogOid) (bumpBlogLikes (likeInc isLikedByUser)) db.blogs,
          notifications := eraseFirst (notifMatches userId blogOid) db.notifications })

/-- `POST /isliked-by-user` (src lines 504-511):
`Notification.exists({type: "like", blog, user})`, returned to the caller
(truthiness of the result is the liked state). -/
def islikedByUser (db : DB) (userId blogOid : Nat) : Bool :=
  db.notifications.any (fun n => n.type == "like" && n.blog == blogOid && n.user == userId)

/-- Request payload of `POST /create-blog`. `draft` and `blogId` may be
absent. -/
structure CreateReq where
  title : String
  banner : String
  content : Content
  tags : List String
  description : String
  draft : Option Bool
  blogId : Option String
deriving DecidableEq

/-- Outcome of `POST /create-blog` as seen by the caller. -/
inductive CreateResp
  | ok (id : String)
  | err (msg : String)
deriving DecidableEq

/-- The validation block of `POST /create-blog` (src lines 236-254):
title length is checked unconditionally; the completeness checks on
description, banner, content blocks and tags run inside `if (draft)`,
i.e. only when the `draft` flag is truthy. Returns the first error
message, `none` when the request passes. -/
def createBlogValidate (r : CreateReq) : Option String :=
  if r.title.length == 0 then some "you must provide blog title."
  else if truthy r.draft then
    if r.description.length == 0 then some "you must provide blog description."
    else if r.banner.length == 0 then some "you must provide blog banner."
    else if r.content.blocks.length == 0 then some "you must provide blog content"
    else if r.tags.length == 0 then some "you must provide tags"
    else none
  else none

/-- JS `String.prototype.toLowerCase` on a tag, written structurally over
the character data (src line 256: `tags.map((t) => t.toLowerCase())`). -/
def lowerTag (s : String) : String :=
  String.mk (s.data.map Char.toLower)

/-- The update applied by the `blogId`-present path of `POST /create-blog`
(src lines 266-276): overwrite the mutable fields and set `draft` to the
provided value when truthy, `false` otherwise. -/
def blogUpdateFields (r : CreateReq) (bb : BlogDoc) : BlogDoc :=
  { bb with
      title := r.title, description := r.description, banner := r.banner,
      content := r.content, tags := r.tags.map lowerTag, draft := truthy r.draft }

/-- The new document saved by the `blogId`-absent path of
`POST /create-blog` (src lines 280-289); `genId` is the externally
generated `slugify(title) + nanoid()` identifier, `freshOid` the fresh
Mongo `_id`. Counter defaults are 0 (schema defaults, modelled from the
spec's data model as the schema files are not under `src/`). -/
def newBlogDoc (authorId : Nat) (r : CreateReq) (genId : String) (freshOid : Nat) : BlogDoc :=
  { oid := freshOid, blog_id := genId, title := r.title,
    description := r.description, banner := r.banner, content := r.content,
    tags := r.tags.map lowerTag, draft := truthy r.draft, author := authorId,
    activity := { total_reads := 0, total_likes := 0 } }

/-- The author update of the create path (src lines 293-301):
`$inc account_info.total_posts` by `draft ? 0 : 1` and `$push` the new
blog's `_id` onto the author's blog list. -/
def applyPostCount (r : CreateReq) (freshOid : Nat) (uu : UserDoc) : UserDoc :=
  { uu with
      account_info := { uu.account_info with
        total_posts := uu.account_info.total_posts + (if truthy r.draft then 0 else 1) },
      blogs := uu.blogs ++ [freshOid] }

/-- `POST /create-blog` (src lines 231-315): validate, then either update
the existing blog in place (update path, which never touches the author's
counters) or save a new blog and bump the author's `total_posts`. -/
def createBlog (db : DB) (authorId : Nat) (r : CreateReq) (genId : String) (freshOid : Nat) :
    CreateResp × DB :=
  match createBlogValidate r with
  | some e => (CreateResp.err e, db)
  | none =>
    match r.blogId with
    | some bid =>
      (CreateResp.ok bid,
       { db with blogs := updateFirst (fun bb => bb.blog_id == bid) (blogUpdateFields r) db.blogs })
    | none =>
      (CreateResp.ok genId,
       { db with
           blogs := db.blogs ++ [newBlogDoc authorId r genId freshOid],
           users := updateFirst (fun uu => uu.oid == authorId) (applyPostCount r freshOid) db.users })

/-- Number of non-draft blogs owned by an author: what
`account_info.total_posts` is documented to equal. -/
def countPublishedOwned (db : DB) (authorId : Nat) : Nat :=
  (db.blogs.filter (fun bb => bb.author == authorId && !bb.draft)).length

/- ------------------------------------------------------------------ -/
/- Concrete fixtures used by closed theorems and witnesses.            -/
/- ------------------------------------------------------------------ -/

/-- A registered author with fresh counters. -/
def user0 : UserDoc :=
  { oid := 0, username := "alice", account_info := { total_posts := 0, total_reads := 0 }, blogs := [] }

/-- A published blog owned by `user0` with 5 likes. -/
def blog1 : BlogDoc :=
  { oid := 1, blog_id := "b1", title := "b", description := "d", banner := "bn",
    content := { blocks := ["p"] }, tags := ["t"], draft := false, author := 0,
    activity := { total_reads := 0, total_likes := 5 } }

/-- A draft blog owned by `user0` with 7 recorded reads. -/
def draftBlog : BlogDoc :=
  { oid := 3, blog_id := "d1", title := "wip", description := "", banner := "",
    content := { blocks := [] }, tags := [], draft := true, author := 0,
    activity := { total_reads := 7, total_likes := 0 } }

/-- State with one published blog and its author. -/
def likeDb : DB := { blogs := [blog1], users := [user0], notifications := [] }

/-- State with one draft blog and its author. -/
def draftDb : DB := { blogs := [draftBlog], users := [user0], notifications := [] }

/-- State with the author only. -/
def baseDb : DB := { blogs := [], users := [user0], notifications := [] }

/-- A create-blog request targeting the Published state (draft omitted)
whose description, banner, content and tags are all empty. -/
def c1Req : CreateReq :=
  { title := "t", banner := "", content := { blocks := [] }, tags := [],
    description := "", draft := none, blogId := none }

/-- A complete create-blog request saved as a draft. -/
def c6ReqA : CreateReq :=
  { title := "t", banner := "bn", content := { blocks := ["blk"] }, tags := ["x"],
    description := "dd", draft := some true, blogId := none }

/-- An update request flipping the blog saved by `c6ReqA` to Published
(draft omitted, so the update stores `draft = false`). -/
def c6ReqB : CreateReq :=
  { title := "t", banner := "", content := { blocks := [] }, tags := [],
    description := "", draft := none, blogId := some "t-1" }

/-- A complete create-blog request targeting the Published state. -/
def c6rPub : CreateReq :=
  { title := "t", banner := "bn", content := { blocks := ["blk"] }, tags := ["x"],
    description := "dd", draft := none, blogId := none }

/-- State after `c6ReqA`: one draft blog, `total_posts` still 0. -/
def c6Db1 : DB := (createBlog baseDb 0 c6ReqA "t-1" 1).2

/-- State after the `c6ReqB` update: the blog is Published, the author's
counters were not touched. -/
def c6Db2 : DB := (createBlog c6Db1 0 c6ReqB "ignored" 2).2

/-- The author as stored in `c6Db1` (draft create pushed the blog
reference but added 0 to `total_posts`). -/
def user0b : UserDoc := { user0 with blogs := [1] }

/- ------------------------------------------------------------------ -/
/- Helper lemmas.                                                      -/
/- ------------------------------------------------------------------ -/

/-- Looking up by the same predicate after a counter update on the first
match sees the updated document, provided the update does not change the
key the predicate reads. -/
theorem find?_updateFirst {α : Type} (p : α → Bool) (f : α → α)
    (hpf : ∀ a, p (f a) = p a) (l : List α) :
    List.find? p (updateFirst p f l) = (List.find? p l).map f := by
  induction l with
  | nil => rfl
  | cons a t ih =>
    cases h : p a with
    | false =>
      rw [updateFirst, if_neg (by simp [h])]
      rw [List.find?_cons_of_neg _ (by simp [h]), List.find?_cons_of_neg _ (by simp [h])]
      exact ih
    | true =>
      rw [updateFirst, if_pos h]
      rw [List.find?_cons_of_pos _ (by rw [hpf a]; exact h), List.find?_cons_of_pos _ h]
      rfl

/-- Deleting the first match from a list whose only match is the final
element removes exactly that element. -/
theorem eraseFirst_append_of_no_match {α : Type} (p : α → Bool) (l : List α) (x : α)
    (h : l.any p = false) (hx : p x = true) :
    eraseFirst p (l ++ [x]) = l := by
  induction l with
  | nil => simp [eraseFirst, hx]
  | cons a t ih =>
    simp only [List.any_cons, Bool.or_eq_false_iff] at h
    rw [List.cons_append, eraseFirst, if_neg (by simp [h.1]), ih h.2]

/-- The delete-query predicate of `/like-blog` agrees pointwise with the
exists-query predicate of `/isliked-by-user` (same conjunction, different
field order). -/
theorem notifMatches_iff (u bo : Nat) (n : NotificationDoc) :
    notifMatches u bo n = (n.type == "like" && n.blog == bo && n.user == u) := by
  cases h1 : n.user == u <;> cases h2 : n.blog == bo <;> cases h3 : n.type == ("like" : String) <;>
    simp [notifMatches, h1, h2, h3]

/-- State of the store after a resolvable `/get-blog` call: the first blog
matching the id gets its reads bumped, the first user carrying the
author's username gets their reads bumped, independently of the
draft-visibility outcome. -/
theorem getBlog_state (db : DB) (blogId : String) (draftReq : Bool) (mode : String)
    (b : BlogDoc) (au : UserDoc)
    (hb : findBlogById db.blogs blogId = some b)
    (hau : findUserByOid db.users b.author = some au) :
    (getBlog db blogId draftReq mode).2.blogs
        = updateFirst (fun bb => bb.blog_id == blogId) (bumpBlogReads (readInc mode)) db.blogs
    ∧ (getBlog db blogId draftReq mode).2.users
        = updateFirst (fun uu => uu.username == au.username) (bumpUserReads (readInc mode)) db.users := by
  simp only [getBlog, hb, hau]
  trivial

/-- The blog's stored read counter after a resolvable `/get-blog` call. -/
theorem blogReads_after (db : DB) (blogId : String) (draftReq : Bool) (mode : String)
    (b : BlogDoc) (au : UserDoc)
    (hb : findBlogById db.blogs blogId = some b)
    (hau : findUserByOid db.users b.author = some au) :
    (findBlogById (getBlog db blogId draftReq mode).2.blogs blogId).map
        (fun x => x.activity.total_reads) = some (b.activity.total_reads + readInc mode) := by
  rw [(getBlog_state db blogId draftReq mode b au hb hau).1]
  unfold findBlogById at hb ⊢
  rw [find?_updateFirst (fun bb => bb.blog_id == blogId) (bumpBlogReads (readInc mode))
        (fun a => rfl), hb]
  rfl

/-- The author's stored read counter after a resolvable `/get-blog` call,
assuming the author is the first user carrying their username (usernames
are unique in the system: signup generates a fresh one on collision). -/
theorem userReads_after (db : DB) (blogId : String) (draftReq : Bool) (mode : String)
    (b : BlogDoc) (au : UserDoc)
    (hb : findBlogById db.blogs blogId = some b)
    (hau : findUserByOid db.users b.author = some au)
    (hfu : findUserByUsername db.users au.username = some au) :
    (findUserByUsername (getBlog db blogId draftReq mode).2.users au.username).map
        (fun x => x.account_info.total_reads) = some (au.account_info.total_reads + readInc mode) := by
  rw [(getBlog_state db blogId draftReq mode b au hb hau).2]
  unfold findUserByUsername at hfu ⊢
  rw [find?_updateFirst (fun uu => uu.username == au.username) (bumpUserReads (readInc mode))
        (fun a => rfl), hfu]
  rfl

/-- The response of a resolvable `/get-blog` call: the pre-update blog
when visible, the draft-denial error otherwise. -/
theorem getBlog_resp (db : DB) (blogId : String) (draftReq : Bool) (mode : String)
    (b : BlogDoc) (au : UserDoc)
    (hb : findBlogById db.blogs blogId = some b)
    (hau : findUserByOid db.users b.author = some au) :
    (getBlog db blogId draftReq mode).1
      = (if b.draft && !draftReq then GetBlogResp.draftDenied else GetBlogResp.ok b) := by
  simp only [getBlog, hb, hau]

/-- A freshly created like-ledger entry satisfies the delete-query
predicate for its own (user, blog) pair. -/
theorem likeEntry_matches (u bOid a : Nat) :
    notifMatches u bOid { type := "like", notification_for := a, blog := bOid, user := u } = true := by
  simp [notifMatches]

/-- State after `/like-blog` with `isLikedByUser = true` on a resolvable
blog: the ledger entry is appended and the blog's likes counter is
updated by `likeInc true`. -/
theorem likeBlog_true_state (db : DB) (u bOid : Nat) (b : BlogDoc)
    (hb : findBlogByOid db.blogs bOid = some b) :
    (likeBlog db u bOid true).2.notifications
        = db.notifications ++ [{ type := "like", notification_for := b.author, blog := bOid, user := u }]
    ∧ (likeBlog db u bOid true).2.blogs
        = updateFirst (fun bb => bb.oid == bOid) (bumpBlogLikes (likeInc true)) db.blogs := by
  simp [likeBlog, hb]

/-- `/like-blog` with `isLikedByUser = false` always deletes the first
matching ledger entry, whether or not the blog resolves. -/
theorem likeBlog_false_notifications (db : DB) (u bOid : Nat) :
    (likeBlog db u bOid false).2.notifications
      = eraseFirst (notifMatches u bOid) db.notifications := by
  cases h : findBlogByOid db.blogs bOid with
  | none => simp [likeBlog, h]
  | some b => simp [likeBlog, h]

/- ------------------------------------------------------------------ -/
/- Claim theorems.                                                     -/
/- ------------------------------------------------------------------ -/

/-- C1: the claim says a create-blog request targeting Published must
fail unless description, banner, content and tags are non-empty, while a
draft save needs only a title. The code has it inverted: the completeness
checks run under `if (draft)`, so a Published creation with every
required field empty succeeds and is stored with `draft = false`, while a
draft save is rejected for a missing description. This theorem evaluates
the embedded handler at that failing input. -/
theorem c1_publish_skips_completeness :
    (createBlog baseDb 0 c1Req ("t-x") 1).1 = CreateResp.ok ("t-x")
    ∧ (((createBlog baseDb 0 c1Req ("t-x") 1).2.blogs.filter
        (fun bb => !bb.draft && (bb.description.length == 0 || bb.banner.length == 0
          || bb.content.blocks.length == 0 || bb.tags.length == 0))).length) = 1
    ∧ createBlogValidate { c1Req with draft := some true }
        = some ("you must provide blog description.") := by decide

/-- C2: the claim says `toggleLike(u, b, true)` increments `total_likes`
by 1 while creating the ledger entry. The code computes
`incrementalValue = !isLikedByUser ? 1 : -1`, so the call that creates
the entry and returns `likedByUser: true` decrements the counter: on
`blog1` (5 likes) a like by user 2 leaves `total_likes = 4`, not 6. -/
theorem c2_like_decrements_total_likes :
    (likeBlog likeDb 2 1 true).1 = LikeResp.ok true
    ∧ ((likeBlog likeDb 2 1 true).2.blogs.map (fun bb => bb.activity.total_likes)) = [4]
    ∧ (likeBlog likeDb 2 1 true).2.notifications
        = [{ type := "like", notification_for := 0, blog := 1, user := 2 }] := by decide

/-- C3: the claim says at most one like-ledger entry exists per
(user, blog) and a double like is idempotent. The code saves the
notification unconditionally, so two sequential likes by user 2 on
blog 1 leave two matching ledger entries. -/
theorem c3_double_like_creates_two_entries :
    (((likeBlog (likeBlog likeDb 2 1 true).2 2 1 true).2.notifications.filter
        (notifMatches 2 1)).length) = 2 := by decide

/-- C4: a `/get-blog` call on a resolvable blog with a resolvable author
updates both stored read counters by `readInc mode`, which is 1 when
`mode != "edit"` and 0 when `mode == "edit"`. The author is assumed to be
the first user carrying their username (usernames are unique: signup
derives a fresh one on collision). -/
theorem c4_recordView_read_counters (db : DB) (blogId : String) (draftReq : Bool) (mode : String)
    (b : BlogDoc) (au : UserDoc)
    (hb : findBlogById db.blogs blogId = some b)
    (hau : findUserByOid db.users b.author = some au)
    (hfu : findUserByUsername db.users au.username = some au) :
    (findBlogById (getBlog db blogId draftReq mode).2.blogs blogId).map
        (fun x => x.activity.total_reads) = some (b.activity.total_reads + readInc mode)
    ∧ (findUserByUsername (getBlog db blogId draftReq mode).2.users au.username).map
        (fun x => x.account_info.total_reads) = some (au.account_info.total_reads + readInc mode) :=
  ⟨blogReads_after db blogId draftReq mode b au hb hau,
   userReads_after db blogId draftReq mode b au hb hau hfu⟩

/-- C4 witness: on `likeDb`, a view-mode fetch bumps both counters by 1
(`readInc "view" = 1`) and an edit-mode fetch leaves both unchanged
(`readInc "edit" = 0`). -/
theorem c4_recordView_read_counters_witness :
    ((findBlogById (getBlog likeDb ("b1") false ("view")).2.blogs ("b1")).map
        (fun x => x.activity.total_reads) = some (blog1.activity.total_reads + readInc ("view"))
      ∧ (findUserByUsername (getBlog likeDb ("b1") false ("view")).2.users user0.username).map
        (fun x => x.account_info.total_reads)
          = some (user0.account_info.total_reads + readInc ("view")))
    ∧ ((findBlogById (getBlog likeDb ("b1") false ("edit")).2.blogs ("b1")).map
        (fun x => x.activity.total_reads) = some (blog1.activity.total_reads + readInc ("edit"))
      ∧ (findUserByUsername (getBlog likeDb ("b1") false ("edit")).2.users user0.username).map
        (fun x => x.account_info.total_reads)
          = some (user0.account_info.total_reads + readInc ("edit"))) :=
  ⟨c4_recordView_read_counters likeDb ("b1") false ("view") blog1 user0
      (by decide) (by decide) (by decide),
   c4_recordView_read_counters likeDb ("b1") false ("edit") blog1 user0
      (by decide) (by decide) (by decide)⟩

/-- C5: a non-edit `/get-blog` on a draft blog without the draft-access
flag responds with the draft-denial error and does not return the blog,
yet both read counters have already been incremented by 1 when the error
is produced (the `$inc` runs before the visibility check). -/
theorem c5_draft_denied_after_increment (db : DB) (blogId : String) (mode : String)
    (b : BlogDoc) (au : UserDoc)
    (hb : findBlogById db.blogs blogId = some b)
    (hau : findUserByOid db.users b.author = some au)
    (hfu : findUserByUsername db.users au.username = some au)
    (hdraft : b.draft = true)
    (hmode : (mode == ("edit" : String)) = false) :
    (getBlog db blogId false mode).1 = GetBlogResp.draftDenied
    ∧ (findBlogById (getBlog db blogId false mode).2.blogs blogId).map
        (fun x => x.activity.total_reads) = some (b.activity.total_reads + 1)
    ∧ (findUserByUsername (getBlog db blogId false mode).2.users au.username).map
        (fun x => x.account_info.total_reads) = some (au.account_info.total_reads + 1) := by
  have hinc : readInc mode = 1 := by simp [readInc, hmode]
  refine ⟨?_, ?_, ?_⟩
  · rw [getBlog_resp db blogId false mode b au hb hau, hdraft]
    simp
  · rw [blogReads_after db blogId false mode b au hb hau, hinc]
  · rw [userReads_after db blogId false mode b au hb hau hfu, hinc]

/-- C5 witness: fetching the draft blog of `draftDb` without the draft
flag is denied while its reads counter moves from 7 to 8 and the
author's from 0 to 1. -/
theorem c5_draft_denied_after_increment_witness :
    (getBlog draftDb ("d1") false ("view")).1 = GetBlogResp.draftDenied
    ∧ (findBlogById (getBlog draftDb ("d1") false ("view")).2.blogs ("d1")).map
        (fun x => x.activity.total_reads) = some (draftBlog.activity.total_reads + 1)
    ∧ (findUserByUsername (getBlog draftDb ("d1") false ("view")).2.users user0.username).map
        (fun x => x.account_info.total_reads) = some (user0.account_info.total_reads + 1) :=
  c5_draft_denied_after_increment draftDb ("d1") ("view") draftBlog user0
    (by decide) (by decide) (by decide) (by decide) (by decide)

/-- C6 counterexample: create a draft (total_posts stays 0), then publish
it through the update path. The state now holds one non-draft blog owned
by author 0 while `account_info.total_posts` is still 0, so total_posts
does not equal the number of non-draft blogs owned after this
create-then-update sequence. -/
theorem c6_counterexample :
    countPublishedOwned c6Db2 0 = 1
    ∧ (findUserByOid c6Db2.users 0).map (fun x => x.account_info.total_posts) = some 0 := by decide

/-- C6 (amended): creating a new blog adds `draft ? 0 : 1` to the
author's `total_posts`, but the update path never touches the users
collection, so the count is not maintained when an update changes a
blog's draft flag. -/
theorem c6_total_posts_adjusted_only_on_create (db : DB) (authorId : Nat) (r : CreateReq)
    (genId : String) (freshOid : Nat) (u : UserDoc)
    (hv : createBlogValidate r = none)
    (hu : findUserByOid db.users authorId = some u) :
    (r.blogId = none →
      (findUserByOid (createBlog db authorId r genId freshOid).2.users authorId).map
          (fun x => x.account_info.total_posts)
        = some (u.account_info.total_posts + (if truthy r.draft then 0 else 1)))
    ∧ (r.blogId.isSome = true →
        (createBlog db authorId r genId freshOid).2.users = db.users) := by
  constructor
  · intro hnone
    simp only [createBlog, hv, hnone]
    unfold findUserByOid at hu ⊢
    rw [find?_updateFirst (fun uu => uu.oid == authorId) (applyPostCount r freshOid)
          (fun a => rfl), hu]
    rfl
  · intro hsome
    cases hsb : r.blogId with
    | none => rw [hsb] at hsome; exact absurd hsome (by simp)
    | some bid => simp [createBlog, hv, hsb]

/-- C6 witness: a Published creation on `baseDb` moves the author's
`total_posts` from 0 to 1, and the `c6ReqB` update on `c6Db1` leaves the
users collection untouched. -/
theorem c6_total_posts_adjusted_only_on_create_witness :
    (findUserByOid (createBlog baseDb 0 c6rPub ("g1") 7).2.users 0).map
        (fun x => x.account_info.total_posts)
      = some (user0.account_info.total_posts + (if truthy c6rPub.draft then 0 else 1))
    ∧ (createBlog c6Db1 0 c6ReqB ("g2") 8).2.users = c6Db1.users :=
  ⟨(c6_total_posts_adjusted_only_on_create baseDb 0 c6rPub ("g1") 7 user0
      (by decide) (by decide)).1 rfl,
   (c6_total_posts_adjusted_only_on_create c6Db1 0 c6ReqB ("g2") 8 user0b
      (by decide) (by decide)).2 rfl⟩

/-- C7: starting from a state where (u, b) has no like-ledger entry and
the blog resolves, `toggleLike(u, b, true)` makes `isLiked(u, b)` return
true, and a subsequent `toggleLike(u, b, false)` makes it return false
again. -/
theorem c7_toggle_then_isLiked (db : DB) (u bOid : Nat) (b : BlogDoc)
    (hb : findBlogByOid db.blogs bOid = some b)
    (h0 : islikedByUser db u bOid = false) :
    islikedByUser (likeBlog db u bOid true).2 u bOid = true
    ∧ islikedByUser (likeBlog (likeBlog db u bOid true).2 u bOid false).2 u bOid = false := by
  have hst := likeBlog_true_state db u bOid b hb
  have hmat : db.notifications.any (notifMatches u bOid) = false := by
    have hfun : notifMatches u bOid
        = (fun n => n.type == "like" && n.blog == bOid && n.user == u) :=
      funext (notifMatches_iff u bOid)
    rw [hfun]
    exact h0
  constructor
  · unfold islikedByUser
    rw [hst.1]
    simp
  · unfold islikedByUser
    rw [likeBlog_false_notifications, hst.1,
        eraseFirst_append_of_no_match _ _ _ hmat (likeEntry_matches u bOid b.author)]
    exact h0

/-- C7 witness: on `likeDb` (no ledger entries), user 2 likes blog 1,
`isLiked` reads true, then unlikes, `isLiked` reads false. -/
theorem c7_toggle_then_isLiked_witness :
    islikedByUser (likeBlog likeDb 2 1 true).2 2 1 = true
    ∧ islikedByUser (likeBlog (likeBlog likeDb 2 1 true).2 2 1 false).2 2 1 = false :=
  c7_toggle_then_isLiked likeDb 2 1 blog1 (by decide) (by decide)

/-- C8 counterexample: `/like-blog` with `isLikedByUser = true` on a blog
`_id` that does not resolve throws inside the `.then` callback of a chain
with no `.catch`: the rejection is unhandled, no response of any kind is
delivered to the caller, refuting the claim that every such request
terminates with a structured error response. -/
theorem c8_counterexample :
    (likeBlog likeDb 2 9 true).1 = LikeResp.uncaught
    ∧ (likeBlog likeDb 2 9 true).2 = likeDb := by decide

/-- C8 (amended): on an unresolvable blog, `/get-blog` replies with the
caught generic 500 error (not a NotFoundError), `/like-blog` with
`isLikedByUser = true` sends no response at all (uncaught), and with
`isLikedByUser = false` replies 200 `likedByUser: false`. -/
theorem c8_unresolved_blog_responses (db : DB) (blogId : String) (draftReq : Bool) (mode : String)
    (u oid : Nat)
    (hg : findBlogById db.blogs blogId = none)
    (hl : findBlogByOid db.blogs oid = none) :
    (getBlog db blogId draftReq mode).1 = GetBlogResp.caughtErr
    ∧ (likeBlog db u oid true).1 = LikeResp.uncaught
    ∧ (likeBlog db u oid false).1 = LikeResp.ok false := by
  refine ⟨?_, ?_, ?_⟩ <;> simp [getBlog, likeBlog, hg, hl]

/-- C8 witness: on `likeDb`, blog id "zz" and `_id` 9 do not resolve. -/
theorem c8_unresolved_blog_responses_witness :
    (getBlog likeDb ("zz") false ("view")).1 = GetBlogResp.caughtErr
    ∧ (likeBlog likeDb 2 9 true).1 = LikeResp.uncaught
    ∧ (likeBlog likeDb 2 9 false).1 = LikeResp.ok false :=
  c8_unresolved_blog_responses likeDb ("zz") false ("view") 2 9 (by decide) (by decide)

/-- C9: the claim says N toggleLike(u, b, true) calls from distinct users
increment `total_likes` by exactly N. Each call does apply a single
atomic `$inc` (so no update is lost), but the delta for
`isLikedByUser = true` is -1: two sequential likes by users 1 and 2 on
`blog1` (5 likes) leave `total_likes = 3`, not 7. -/
theorem c9_two_likes_decrement_by_two :
    ((likeBlog (likeBlog likeDb 1 1 true).2 2 1 true).2.blogs.map
        (fun bb => bb.activity.total_likes)) = [3] := by decide

/-- C10: a non-edit `/get-blog` on a resolvable, visible blog returns the
pre-update document `b`: the returned `activity.total_reads` is the value
from before the call's own increment, while the stored counter is
`b.activity.total_reads + 1`. -/
theorem c10_returned_blog_is_pre_increment (db : DB) (blogId : String) (draftReq : Bool)
    (mode : String) (b : BlogDoc) (au : UserDoc)
    (hb : findBlogById db.blogs blogId = some b)
    (hau : findUserByOid db.users b.author = some au)
    (hmode : (mode == ("edit" : String)) = false)
    (hvis : (b.draft && !draftReq) = false) :
    (getBlog db blogId draftReq mode).1 = GetBlogResp.ok b
    ∧ (findBlogById (getBlog db blogId draftReq mode).2.blogs blogId).map
        (fun x => x.activity.total_reads) = some (b.activity.total_reads + 1) := by
  have hinc : readInc mode = 1 := by simp [readInc, hmode]
  constructor
  · rw [getBlog_resp db blogId draftReq mode b au hb hau, hvis]
    simp
  · rw [blogReads_after db blogId draftReq mode b au hb hau, hinc]

/-- C10 witness: viewing `blog1` returns the document with
`total_reads = 0` while the stored counter becomes 1. -/
theorem c10_returned_blog_is_pre_increment_witness :
    (getBlog likeDb ("b1") false ("view")).1 = GetBlogResp.ok blog1
    ∧ (findBlogById (getBlog likeDb ("b1") false ("view")).2.blogs ("b1")).map
        (fun x => x.activity.total_reads) = some (blog1.activity.total_reads + 1) :=
  c10_returned_blog_is_pre_increment likeDb ("b1") false ("view") blog1 user0
    (by decide) (by decide) (by decide) (by decide)

end PearlBlog
